import Mathlib

/-!
Verification of the camera re-posing script `infinigen_examples/place_cameras.py`.

The script is sequential glue over an external host application (the scene
state `bpy`) and an external procedural-generation library.  We embed:

  * the scene state (`Scene`): the list of objects (`bpy.data.objects`) and
    the named collections (`bpy.data.collections`), each holding member
    objects;
  * the two pure-logic functions of the script,
    `delete_existing_camera_rigs` and `reconstruct_scene_vars`, translated
    line by line;
  * the orchestration `re_pose_cameras`, with every external collaborator
    (scene load, preprocessing, rig spawning, face extraction, join,
    trajectory solving, save) given as an oracle in an `Env` record whose
    calls may fail (`Except String`), and with the sequence of external
    calls recorded as a trace so that claims about which calls happen, and
    with which arguments, can be stated.

Objects are opaque handles with an `id` and a `type` attribute; tags are
queried through the external `getTags` collaborator, never stored on the
object, exactly as the script does via `tagging.get_tags`.
-/

namespace PlaceCameras

/-- An opaque scene-object handle: `bpy` objects expose a `type` attribute
(the script filters on `o.type == 'MESH'`). -/
structure Obj where
  id : Nat
  type : String
  deriving DecidableEq, Repr

/-- A named collection of the scene state (`bpy.data.collections`). -/
structure Collection where
  name : String
  objects : List Obj
  deriving DecidableEq, Repr

/-- The host application scene state: all objects plus named collections. -/
structure Scene where
  objects : List Obj
  collections : List Collection
  deriving DecidableEq, Repr

/-- The semantic tag `t.Semantics.Room` used by the classifier. -/
def Semantics.Room : String := "Room"

/-- The subpart tag `t.Subpart.SupportSurface` used by face extraction. -/
def Subpart.SupportSurface : String := "SupportSurface"

/-- Lookup of a collection by name: models the pair
`"camera_rigs" in bpy.data.collections` / `bpy.data.collections["camera_rigs"]`. -/
def findCollection (s : Scene) (name : String) : Option Collection :=
  s.collections.find? (fun c => c.name == name)

/-- Batch scoped delete (`with butil.SelectObjects(objs): bpy.ops.object.delete()`):
the selected objects disappear from the scene state and from every collection. -/
def deleteObjects (objs : List Obj) (s : Scene) : Scene :=
  { objects := s.objects.filter (fun o => decide (o ∉ objs)),
    collections := s.collections.map
      (fun c => { c with objects := c.objects.filter (fun o => decide (o ∉ objs)) }) }

/-- Translation of `delete_existing_camera_rigs`: if the collection named
`camera_rigs` is absent, return (no-op); if its member list is empty, return
(no-op); otherwise delete exactly its members via a scoped batch delete. -/
def delete_existing_camera_rigs (s : Scene) : Scene :=
  match findCollection s "camera_rigs" with
  | none => s
  | some rig_collection =>
    let objects_to_delete := rig_collection.objects
    if objects_to_delete.isEmpty then s
    else deleteObjects objects_to_delete s

/-- The mesh-object scan `[o for o in bpy.data.objects if o.type == 'MESH']`. -/
def all_mesh_objs (s : Scene) : List Obj :=
  s.objects.filter (fun o => o.type == "MESH")

/-- Translation of `reconstruct_scene_vars`, with the external tag lookup
`tagging.get_tags` passed in as `getTags`.  Returns
`(room_objs, nonroom_objs, room_objs ++ nonroom_objs)`. -/
def reconstruct_scene_vars (getTags : Obj → List String) (s : Scene) :
    List Obj × List Obj × List Obj :=
  let all_objs := all_mesh_objs s
  let room_objs := all_objs.filter (fun o => decide (Semantics.Room ∈ getTags o))
  let nonroom_objs := all_objs.filter (fun o => decide (Semantics.Room ∉ getTags o))
  (room_objs, nonroom_objs, room_objs ++ nonroom_objs)

/-- State-passing form of the classifier: the body only reads the scene
state (the script builds lists from `bpy.data.objects` and never issues a
mutation against `bpy`), so the resulting scene state is returned alongside
the three lists. -/
def reconstruct_scene_vars_state (getTags : Obj → List String) (s : Scene) :
    (List Obj × List Obj × List Obj) × Scene :=
  let all_objs := all_mesh_objs s
  let room_objs := all_objs.filter (fun o => decide (Semantics.Room ∈ getTags o))
  let nonroom_objs := all_objs.filter (fun o => decide (Semantics.Room ∉ getTags o))
  ((room_objs, nonroom_objs, room_objs ++ nonroom_objs), s)

/-- Instrumented filter: second component is the list of elements on which
the predicate was evaluated, in evaluation order (one evaluation per
element, as in a Python list comprehension). -/
def filterWithLookups (p : Obj → Bool) : List Obj → List Obj × List Obj
  | [] => ([], [])
  | o :: rest =>
    let r := filterWithLookups p rest
    ((if p o then o :: r.1 else r.1), o :: r.2)

/-- The sequence of objects on which `reconstruct_scene_vars` evaluates the
external tag lookup: the first comprehension queries every mesh object once,
then the second comprehension queries every mesh object once more. -/
def reconstruct_scene_vars_lookups (getTags : Obj → List String) (s : Scene) :
    List Obj :=
  let all_objs := all_mesh_objs s
  let r1 := filterWithLookups (fun o => decide (Semantics.Room ∈ getTags o)) all_objs
  let r2 := filterWithLookups (fun o => decide (Semantics.Room ∉ getTags o)) all_objs
  r1.2 ++ r2.2

/-- Single-pass reference classifier: one traversal, one tag lookup per
object.  Components: rooms, non-rooms, and the lookup sequence. -/
def classify_single_pass (getTags : Obj → List String) :
    List Obj → List Obj × List Obj × List Obj
  | [] => ([], [], [])
  | o :: rest =>
    let r := classify_single_pass getTags rest
    if Semantics.Room ∈ getTags o then (o :: r.1, r.2.1, o :: r.2.2)
    else (r.1, o :: r.2.1, o :: r.2.2)

/-- Command-line arguments of the script (both required). -/
structure Args where
  input_blend : String
  output_folder : String
  deriving DecidableEq, Repr

/-- One external call issued by the workflow, with its arguments. -/
inductive Call where
  | open_mainfile (path : String)
  | preprocess (scene_objs : List Obj)
  | spawn_rigs
  | extract (o : Obj) (tagset : List String)
  | join (faces : List Obj)
  | solve (rigs : List Obj) (surface : Obj) (nonrooms : List Obj)
  | delete (o : Obj)
  | save (path : String)
  deriving DecidableEq, Repr

/-- The external collaborators consumed by the workflow, as fallible
oracles.  `stem` models `pathlib.Path.stem`; `spawn_camera_rigs` may grow
the scene state; `join_objects` yields the handle of the combined
floor-surface object that the join leaves in the scene state. -/
structure Env where
  getTags : Obj → List String
  stem : String → String
  loadScene : String → Except String Scene
  camera_selection_preprocessing : List Obj → Except String Nat
  spawn_camera_rigs : Scene → Except String (List Obj × Scene)
  extract_tagged_faces : Obj → List String → Except String Obj
  join_objects : List Obj → Except String Obj
  compute_poses : List Obj → Nat → Obj → List Obj → Except String Unit
  save_as_mainfile : String → Except String Unit

/-- Outcome of one run: scene state at termination, the propagated error if
the run aborted, the files written, and the trace of external calls. -/
structure RunResult where
  scene : Scene
  error : Option String
  saved : List String
  calls : List Call
  deriving DecidableEq, Repr

/-- Registration of a freshly created object in the scene state. -/
def addObj (o : Obj) (s : Scene) : Scene :=
  { s with objects := s.objects ++ [o] }

/-- `butil.delete` on a single object: it disappears from the scene state. -/
def removeObj (o : Obj) (s : Scene) : Scene :=
  { objects := s.objects.filter (fun x => decide (x ≠ o)),
    collections := s.collections.map
      (fun c => { c with objects := c.objects.filter (fun x => decide (x ≠ o)) }) }

/-- The comprehension
`[tagging.extract_tagged_faces(o, {t.Subpart.SupportSurface}) for o in solved_rooms]`:
left-to-right, first failure propagates.  Returns the extraction calls made
and the list of face objects (or the propagated error). -/
def extract_all (env : Env) : List Obj → List Call × Except String (List Obj)
  | [] => ([], .ok [])
  | o :: rest =>
    match env.extract_tagged_faces o [Subpart.SupportSurface] with
    | .error e => ([Call.extract o [Subpart.SupportSurface]], .error e)
    | .ok f =>
      let r := extract_all env rest
      (Call.extract o [Subpart.SupportSurface] :: r.1, r.2.map (fun fs => f :: fs))

/-- The output path: `args.output_folder / f"{args.input_blend.stem}_with_new_cameras.blend"`. -/
def output_path (env : Env) (args : Args) : String :=
  args.output_folder ++ "/" ++ env.stem args.input_blend ++ "_with_new_cameras.blend"

/-- Steps 4 and 5 of `re_pose_cameras`, starting from the cleaned scene
state `s3` and the three classifier lists: preprocessing, rig spawning,
face extraction, join, trajectory solving, deletion of the temporary
floor surface, and save.  Each external call is sequential; the first
failure aborts with the error propagated and the scene state as it stood. -/
def place_and_save (env : Env) (args : Args) (s3 : Scene)
    (solved_rooms nonroom_objs scene_objs : List Obj) : RunResult :=
  match env.camera_selection_preprocessing scene_objs with
  | .error e => ⟨s3, some e, [], [Call.preprocess scene_objs]⟩
  | .ok scene_preprocessed =>
    match env.spawn_camera_rigs s3 with
    | .error e => ⟨s3, some e, [], [Call.preprocess scene_objs, Call.spawn_rigs]⟩
    | .ok pr =>
      let camera_rigs := pr.1
      let s4 := pr.2
      let ex := extract_all env solved_rooms
      let calls3 := Call.preprocess scene_objs :: Call.spawn_rigs :: ex.1
      match ex.2 with
      | .error e => ⟨s4, some e, [], calls3⟩
      | .ok faces =>
        match env.join_objects faces with
        | .error e => ⟨s4, some e, [], calls3 ++ [Call.join faces]⟩
        | .ok solved_floor_surface =>
          let s5 := addObj solved_floor_surface s4
          let calls4 := calls3 ++ [Call.join faces]
          match env.compute_poses camera_rigs scene_preprocessed
              solved_floor_surface nonroom_objs with
          | .error e =>
            ⟨s5, some e, [],
              calls4 ++ [Call.solve camera_rigs solved_floor_surface nonroom_objs]⟩
          | .ok _ =>
            let s6 := removeObj solved_floor_surface s5
            let calls5 := calls4 ++
              [Call.solve camera_rigs solved_floor_surface nonroom_objs,
               Call.delete solved_floor_surface]
            match env.save_as_mainfile (output_path env args) with
            | .error e => ⟨s6, some e, [], calls5 ++ [Call.save (output_path env args)]⟩
            | .ok _ =>
              ⟨s6, none, [output_path env args], calls5 ++ [Call.save (output_path env args)]⟩

/-- Translation of `re_pose_cameras`: load the file, delete existing camera
rigs, reconstruct the scene variables, then place cameras and save. -/
def re_pose_cameras (env : Env) (args : Args) (s0 : Scene) : RunResult :=
  match env.loadScene args.input_blend with
  | .error e => ⟨s0, some e, [], [Call.open_mainfile args.input_blend]⟩
  | .ok s1 =>
    let s2 := delete_existing_camera_rigs s1
    let v := reconstruct_scene_vars env.getTags s2
    let r := place_and_save env args s2 v.1 v.2.1 v.2.2
    { r with calls := Call.open_mainfile args.input_blend :: r.calls }

/-! Concrete fixtures used to instantiate the theorems. -/

/-- A room object of a small demonstration scene. -/
def objRoom : Obj := ⟨1, "MESH"⟩

/-- A non-room mesh object. -/
def objChair : Obj := ⟨2, "MESH"⟩

/-- A non-mesh object (filtered out by the classifier). -/
def objLight : Obj := ⟨3, "LIGHT"⟩

/-- A pre-existing camera rig object. -/
def objRig1 : Obj := ⟨4, "EMPTY"⟩

/-- A second pre-existing camera rig object. -/
def objRig2 : Obj := ⟨5, "EMPTY"⟩

/-- The combined floor-surface object produced by the join oracle. -/
def surfObj : Obj := ⟨100, "MESH"⟩

/-- Demonstration tag lookup: only `objRoom` carries the Room tag. -/
def tagsDemo : Obj → List String := fun o => if o.id = 1 then [Semantics.Room] else []

/-- Demonstration scene: two mesh objects, a light, and a `camera_rigs`
collection with two members. -/
def sceneDemo : Scene :=
  ⟨[objRoom, objChair, objLight, objRig1, objRig2],
   [⟨"camera_rigs", [objRig1, objRig2]⟩]⟩

/-- Demonstration arguments. -/
def argsDemo : Args := ⟨"/scenes/scene.blend", "/out"⟩

/-- Environment in which every external call succeeds. -/
def envOk : Env where
  getTags := tagsDemo
  stem := fun _ => "scene"
  loadScene := fun _ => .ok sceneDemo
  camera_selection_preprocessing := fun _ => .ok 0
  spawn_camera_rigs := fun s => .ok ([⟨10, "EMPTY"⟩], s)
  extract_tagged_faces := fun o _ => .ok ⟨o.id + 50, "MESH"⟩
  join_objects := fun _ => .ok surfObj
  compute_poses := fun _ _ _ _ => .ok ()
  save_as_mainfile := fun _ => .ok ()

/-- Environment in which only the trajectory solver fails. -/
def envSolverFail : Env :=
  { envOk with compute_poses := fun _ _ _ _ => .error "solver failed" }

/-- Environment in which only camera-selection preprocessing fails. -/
def envPrepFail : Env :=
  { envOk with camera_selection_preprocessing := fun _ => .error "preprocessing failed" }

/-- Scene with four non-room mesh objects and no `camera_rigs` collection. -/
def sceneNoRooms : Scene :=
  ⟨[⟨6, "MESH"⟩, ⟨7, "MESH"⟩, ⟨8, "MESH"⟩, ⟨9, "MESH"⟩], []⟩

/-- Environment loading `sceneNoRooms`, in which no object has the Room tag
and every external call succeeds. -/
def envNoRooms : Env :=
  { envOk with getTags := fun _ => [], loadScene := fun _ => .ok sceneNoRooms }

/-! Helper lemmas about the embedding. -/

/-- The instrumented filter evaluates its predicate on every element, in
order: the lookup sequence is the input list itself. -/
theorem filterWithLookups_snd (p : Obj → Bool) (l : List Obj) :
    (filterWithLookups p l).2 = l := by
  induction l with
  | nil => rfl
  | cons o rest ih => simp [filterWithLookups, ih]

/-- The instrumented filter keeps exactly the elements the plain filter keeps. -/
theorem filterWithLookups_fst (p : Obj → Bool) (l : List Obj) :
    (filterWithLookups p l).1 = l.filter p := by
  induction l with
  | nil => rfl
  | cons o rest ih =>
    by_cases h : p o <;> simp [filterWithLookups, ih, h, List.filter_cons]

/-- Rooms component of the single-pass reference equals the room filter. -/
theorem classify_single_pass_fst (getTags : Obj → List String) (l : List Obj) :
    (classify_single_pass getTags l).1 =
      l.filter (fun o => decide (Semantics.Room ∈ getTags o)) := by
  induction l with
  | nil => rfl
  | cons o rest ih =>
    by_cases h : Semantics.Room ∈ getTags o <;>
      simp [classify_single_pass, ih, h, List.filter_cons]

/-- Non-rooms component of the single-pass reference equals the non-room filter. -/
theorem classify_single_pass_snd (getTags : Obj → List String) (l : List Obj) :
    (classify_single_pass getTags l).2.1 =
      l.filter (fun o => decide (Semantics.Room ∉ getTags o)) := by
  induction l with
  | nil => rfl
  | cons o rest ih =>
    by_cases h : Semantics.Room ∈ getTags o <;>
      simp [classify_single_pass, ih, h, List.filter_cons]

/-- The single-pass reference looks each object up once, in order. -/
theorem classify_single_pass_trace (getTags : Obj → List String) (l : List Obj) :
    (classify_single_pass getTags l).2.2 = l := by
  induction l with
  | nil => rfl
  | cons o rest ih =>
    by_cases h : Semantics.Room ∈ getTags o <;> simp [classify_single_pass, ih, h]

/-- Every call recorded by the extraction comprehension is an extraction call. -/
theorem extract_all_calls (env : Env) (l : List Obj) (c : Call)
    (hc : c ∈ (extract_all env l).1) : ∃ o ts, c = Call.extract o ts := by
  induction l with
  | nil => simp [extract_all] at hc
  | cons o rest ih =>
    unfold extract_all at hc
    cases h : env.extract_tagged_faces o [Subpart.SupportSurface] with
    | error e =>
      rw [h] at hc
      simp at hc
      exact ⟨o, [Subpart.SupportSurface], hc⟩
    | ok f =>
      rw [h] at hc
      simp at hc
      rcases hc with hc | hc
      · exact ⟨o, [Subpart.SupportSurface], hc⟩
      · exact ih hc

/-- A deleted object is gone from the scene state. -/
theorem not_mem_removeObj (o : Obj) (s : Scene) : o ∉ (removeObj o s).objects := by
  intro h
  simp [removeObj, List.mem_filter] at h

/-- A registered object is present in the scene state. -/
theorem mem_addObj (o : Obj) (s : Scene) : o ∈ (addObj o s).objects := by
  simp [addObj]

/-- Unfolding of the workflow once the load call has succeeded. -/
theorem re_pose_ok_load (env : Env) (args : Args) (s0 s1 : Scene)
    (h : env.loadScene args.input_blend = .ok s1) :
    re_pose_cameras env args s0 =
      { place_and_save env args (delete_existing_camera_rigs s1)
          (reconstruct_scene_vars env.getTags (delete_existing_camera_rigs s1)).1
          (reconstruct_scene_vars env.getTags (delete_existing_camera_rigs s1)).2.1
          (reconstruct_scene_vars env.getTags (delete_existing_camera_rigs s1)).2.2 with
        calls := Call.open_mainfile args.input_blend ::
          (place_and_save env args (delete_existing_camera_rigs s1)
            (reconstruct_scene_vars env.getTags (delete_existing_camera_rigs s1)).1
            (reconstruct_scene_vars env.getTags (delete_existing_camera_rigs s1)).2.1
            (reconstruct_scene_vars env.getTags (delete_existing_camera_rigs s1)).2.2).calls } := by
  simp [re_pose_cameras, h]

/-- Unfolding of the placement stage when preprocessing fails. -/
theorem place_and_save_prep_error (env : Env) (args : Args) (s3 : Scene)
    (solved_rooms nonroom_objs scene_objs : List Obj) (e : String)
    (h1 : env.camera_selection_preprocessing scene_objs = .error e) :
    place_and_save env args s3 solved_rooms nonroom_objs scene_objs =
      ⟨s3, some e, [], [Call.preprocess scene_objs]⟩ := by
  simp [place_and_save, h1]

/-- Unfolding of the placement stage when rig spawning fails. -/
theorem place_and_save_spawn_error (env : Env) (args : Args) (s3 : Scene)
    (solved_rooms nonroom_objs scene_objs : List Obj) (prep : Nat) (e : String)
    (h1 : env.camera_selection_preprocessing scene_objs = .ok prep)
    (h2 : env.spawn_camera_rigs s3 = .error e) :
    place_and_save env args s3 solved_rooms nonroom_objs scene_objs =
      ⟨s3, some e, [], [Call.preprocess scene_objs, Call.spawn_rigs]⟩ := by
  simp [place_and_save, h1, h2]

/-- Unfolding of the placement stage when face extraction fails. -/
theorem place_and_save_extract_error (env : Env) (args : Args) (s3 : Scene)
    (solved_rooms nonroom_objs scene_objs : List Obj) (prep : Nat)
    (pr : List Obj × Scene) (e : String)
    (h1 : env.camera_selection_preprocessing scene_objs = .ok prep)
    (h2 : env.spawn_camera_rigs s3 = .ok pr)
    (h3 : (extract_all env solved_rooms).2 = .error e) :
    place_and_save env args s3 solved_rooms nonroom_objs scene_objs =
      ⟨pr.2, some e, [],
        Call.preprocess scene_objs :: Call.spawn_rigs :: (extract_all env solved_rooms).1⟩ := by
  simp [place_and_save, h1, h2, h3]

/-- Unfolding of the placement stage when the join fails. -/
theorem place_and_save_join_error (env : Env) (args : Args) (s3 : Scene)
    (solved_rooms nonroom_objs scene_objs : List Obj) (prep : Nat)
    (pr : List Obj × Scene) (faces : List Obj) (e : String)
    (h1 : env.camera_selection_preprocessing scene_objs = .ok prep)
    (h2 : env.spawn_camera_rigs s3 = .ok pr)
    (h3 : (extract_all env solved_rooms).2 = .ok faces)
    (h4 : env.join_objects faces = .error e) :
    place_and_save env args s3 solved_rooms nonroom_objs scene_objs =
      ⟨pr.2, some e, [],
        (Call.preprocess scene_objs :: Call.spawn_rigs :: (extract_all env solved_rooms).1)
          ++ [Call.join faces]⟩ := by
  simp [place_and_save, h1, h2, h3, h4]

/-- Unfolding of the placement stage when the trajectory solver fails. -/
theorem place_and_save_solver_error (env : Env) (args : Args) (s3 : Scene)
    (solved_rooms nonroom_objs scene_objs : List Obj) (prep : Nat)
    (pr : List Obj × Scene) (faces : List Obj) (surf : Obj) (e : String)
    (h1 : env.camera_selection_preprocessing scene_objs = .ok prep)
    (h2 : env.spawn_camera_rigs s3 = .ok pr)
    (h3 : (extract_all env solved_rooms).2 = .ok faces)
    (h4 : env.join_objects faces = .ok surf)
    (h5 : env.compute_poses pr.1 prep surf nonroom_objs = .error e) :
    place_and_save env args s3 solved_rooms nonroom_objs scene_objs =
      ⟨addObj surf pr.2, some e, [],
        (Call.preprocess scene_objs :: Call.spawn_rigs :: (extract_all env solved_rooms).1)
          ++ [Call.join faces] ++ [Call.solve pr.1 surf nonroom_objs]⟩ := by
  simp [place_and_save, h1, h2, h3, h4, h5]

/-- Unfolding of the placement stage when only the save call fails. -/
theorem place_and_save_save_error (env : Env) (args : Args) (s3 : Scene)
    (solved_rooms nonroom_objs scene_objs : List Obj) (prep : Nat)
    (pr : List Obj × Scene) (faces : List Obj) (surf : Obj) (e : String)
    (h1 : env.camera_selection_preprocessing scene_objs = .ok prep)
    (h2 : env.spawn_camera_rigs s3 = .ok pr)
    (h3 : (extract_all env solved_rooms).2 = .ok faces)
    (h4 : env.join_objects faces = .ok surf)
    (h5 : env.compute_poses pr.1 prep surf nonroom_objs = .ok ())
    (h6 : env.save_as_mainfile (output_path env args) = .error e) :
    place_and_save env args s3 solved_rooms nonroom_objs scene_objs =
      ⟨removeObj surf (addObj surf pr.2), some e, [],
        (Call.preprocess scene_objs :: Call.spawn_rigs :: (extract_all env solved_rooms).1)
          ++ [Call.join faces]
          ++ [Call.solve pr.1 surf nonroom_objs, Call.delete surf]
          ++ [Call.save (output_path env args)]⟩ := by
  simp [place_and_save, h1, h2, h3, h4, h5, h6]

/-- Unfolding of the placement stage when every external call succeeds. -/
theorem place_and_save_success (env : Env) (args : Args) (s3 : Scene)
    (solved_rooms nonroom_objs scene_objs : List Obj) (prep : Nat)
    (pr : List Obj × Scene) (faces : List Obj) (surf : Obj)
    (h1 : env.camera_selection_preprocessing scene_objs = .ok prep)
    (h2 : env.spawn_camera_rigs s3 = .ok pr)
    (h3 : (extract_all env solved_rooms).2 = .ok faces)
    (h4 : env.join_objects faces = .ok surf)
    (h5 : env.compute_poses pr.1 prep surf nonroom_objs = .ok ())
    (h6 : env.save_as_mainfile (output_path env args) = .ok ()) :
    place_and_save env args s3 solved_rooms nonroom_objs scene_objs =
      ⟨removeObj surf (addObj surf pr.2), none, [output_path env args],
        (Call.preprocess scene_objs :: Call.spawn_rigs :: (extract_all env solved_rooms).1)
          ++ [Call.join faces]
          ++ [Call.solve pr.1 surf nonroom_objs, Call.delete surf]
          ++ [Call.save (output_path env args)]⟩ := by
  simp [place_and_save, h1, h2, h3, h4, h5, h6]

/-- All calls of the extraction comprehension are extraction calls, so no
save call is among them. -/
theorem save_not_mem_extract_all (env : Env) (l : List Obj) (p : String) :
    Call.save p ∉ (extract_all env l).1 := by
  intro h
  obtain ⟨o, ts, hts⟩ := extract_all_calls env l _ h
  exact Call.noConfusion hts

/-- All calls of the extraction comprehension are extraction calls, so no
delete call is among them. -/
theorem delete_not_mem_extract_all (env : Env) (l : List Obj) (o : Obj) :
    Call.delete o ∉ (extract_all env l).1 := by
  intro h
  obtain ⟨o2, ts, hts⟩ := extract_all_calls env l _ h
  exact Call.noConfusion hts

/-! The claims. -/

/-- Claim C2: the Scene Classifier partitions the mesh objects: an object is
in rooms iff the tag lookup reports the Room tag for it, in non-rooms iff it
does not, never in both, and the combined list covers exactly the mesh
objects with no duplicates (for a scene state whose object list has no
duplicate handles). -/
theorem C2_classifier_partition (getTags : Obj → List String) (s : Scene)
    (hnd : s.objects.Nodup) :
    (∀ o : Obj, o ∈ (reconstruct_scene_vars getTags s).1 ↔
        o ∈ all_mesh_objs s ∧ Semantics.Room ∈ getTags o)
    ∧ (∀ o : Obj, o ∈ (reconstruct_scene_vars getTags s).2.1 ↔
        o ∈ all_mesh_objs s ∧ Semantics.Room ∉ getTags o)
    ∧ (∀ o : Obj, ¬(o ∈ (reconstruct_scene_vars getTags s).1 ∧
        o ∈ (reconstruct_scene_vars getTags s).2.1))
    ∧ (∀ o : Obj, o ∈ (reconstruct_scene_vars getTags s).2.2 ↔ o ∈ all_mesh_objs s)
    ∧ (reconstruct_scene_vars getTags s).2.2.Nodup := by
  have hmesh : (all_mesh_objs s).Nodup := hnd.filter _
  refine ⟨?_, ?_, ?_, ?_, ?_⟩
  · intro o; simp [reconstruct_scene_vars, List.mem_filter]
  · intro o; simp [reconstruct_scene_vars, List.mem_filter]
  · intro o; simp [reconstruct_scene_vars, List.mem_filter]; tauto
  · intro o; simp [reconstruct_scene_vars, List.mem_filter]; tauto
  · refine List.nodup_append.mpr ⟨hmesh.filter _, hmesh.filter _, ?_⟩
    intro a ha hb
    simp [List.mem_filter] at ha hb
    exact hb.2 ha.2

/-- Witness for C2 on the demonstration scene. -/
theorem C2_classifier_partition_witness :
    sceneDemo.objects.Nodup ∧ (reconstruct_scene_vars tagsDemo sceneDemo).2.2.Nodup :=
  ⟨by decide, (C2_classifier_partition tagsDemo sceneDemo (by decide)).2.2.2.2⟩

/-- Claim C4: when the `camera_rigs` collection is absent, or present but
empty, the Rig Cleaner leaves the scene state unchanged (and, being a total
function of the scene state, raises nothing). -/
theorem C4_rig_cleaner_noop (s : Scene)
    (h : findCollection s "camera_rigs" = none ∨
      ∃ c, findCollection s "camera_rigs" = some c ∧ c.objects = []) :
    delete_existing_camera_rigs s = s := by
  rcases h with h | ⟨c, h, hc⟩
  · simp [delete_existing_camera_rigs, h]
  · simp [delete_existing_camera_rigs, h, hc]

/-- Witness for C4: a scene with no `camera_rigs` collection and a scene
with an empty one. -/
theorem C4_rig_cleaner_noop_witness :
    (findCollection sceneNoRooms "camera_rigs" = none ∧
      delete_existing_camera_rigs sceneNoRooms = sceneNoRooms)
    ∧ (findCollection (Scene.mk [objChair] [⟨"camera_rigs", []⟩]) "camera_rigs" =
        some ⟨"camera_rigs", []⟩ ∧
      delete_existing_camera_rigs (Scene.mk [objChair] [⟨"camera_rigs", []⟩]) =
        Scene.mk [objChair] [⟨"camera_rigs", []⟩]) :=
  ⟨⟨by decide, C4_rig_cleaner_noop sceneNoRooms (Or.inl (by decide))⟩,
   ⟨by decide, C4_rig_cleaner_noop (Scene.mk [objChair] [⟨"camera_rigs", []⟩])
      (Or.inr ⟨⟨"camera_rigs", []⟩, by decide, rfl⟩)⟩⟩

/-- Claim C5: when the `camera_rigs` collection exists, the Rig Cleaner
removes from the scene state exactly its member objects: an object survives
iff it was in the scene state and is not a member of the collection. -/
theorem C5_rig_cleaner_deletes_exactly_members (s : Scene) (c : Collection)
    (h : findCollection s "camera_rigs" = some c) :
    ∀ o : Obj, o ∈ (delete_existing_camera_rigs s).objects ↔
      o ∈ s.objects ∧ o ∉ c.objects := by
  intro o
  by_cases he : c.objects.isEmpty
  · have hnil : c.objects = [] := by simpa using he
    simp [delete_existing_camera_rigs, h, hnil]
  · simp [delete_existing_camera_rigs, h, he, deleteObjects, List.mem_filter]

/-- Witness for C5 on the demonstration scene with two rig objects. -/
theorem C5_rig_cleaner_witness :
    findCollection sceneDemo "camera_rigs" = some ⟨"camera_rigs", [objRig1, objRig2]⟩
    ∧ (objRig1 ∈ (delete_existing_camera_rigs sceneDemo).objects ↔
        objRig1 ∈ sceneDemo.objects ∧ objRig1 ∉ [objRig1, objRig2]) :=
  ⟨by decide,
   C5_rig_cleaner_deletes_exactly_members sceneDemo ⟨"camera_rigs", [objRig1, objRig2]⟩
     (by decide) objRig1⟩

/-- Claim C6: the combined list is the concatenation rooms then non-rooms,
and each partition preserves the relative order of the scene-state mesh-object
enumeration (it is a sublist of it). -/
theorem C6_combined_is_rooms_then_nonrooms (getTags : Obj → List String) (s : Scene) :
    (reconstruct_scene_vars getTags s).2.2 =
      (reconstruct_scene_vars getTags s).1 ++ (reconstruct_scene_vars getTags s).2.1
    ∧ (reconstruct_scene_vars getTags s).1.Sublist (all_mesh_objs s)
    ∧ (reconstruct_scene_vars getTags s).2.1.Sublist (all_mesh_objs s) :=
  ⟨rfl, List.filter_sublist _, List.filter_sublist _⟩

/-- Claim C10: the classifier is read-only: in state-passing form it returns
the scene state unchanged, computes the same lists as the plain form, and
every handle it returns is an object already present in the scene state. -/
theorem C10_classifier_read_only (getTags : Obj → List String) (s : Scene) :
    (reconstruct_scene_vars_state getTags s).2 = s
    ∧ (reconstruct_scene_vars_state getTags s).1 = reconstruct_scene_vars getTags s
    ∧ (∀ o : Obj, o ∈ (reconstruct_scene_vars_state getTags s).1.2.2 → o ∈ s.objects) := by
  refine ⟨rfl, rfl, ?_⟩
  intro o ho
  simp [reconstruct_scene_vars_state, all_mesh_objs, List.mem_filter] at ho
  tauto

/-- Counterexample for C3: in the demonstration scene the classifier
evaluates the tag lookup twice on a mesh object, so it is not true that no
mesh object is evaluated more than once. -/
theorem C3_single_lookup_counterexample :
    ¬ ∀ o ∈ all_mesh_objs sceneDemo,
        List.count o (reconstruct_scene_vars_lookups tagsDemo sceneDemo) ≤ 1 := by
  decide

/-- Amended claim C3: the classifier computes the same rooms and non-rooms
lists as the single-pass reference, but it queries the tag lookup exactly
twice per mesh object (once per comprehension), whereas the reference
queries exactly once per mesh object. -/
theorem C3_two_lookups_per_object (getTags : Obj → List String) (s : Scene)
    (hnd : s.objects.Nodup) :
    (reconstruct_scene_vars getTags s).1 =
        (classify_single_pass getTags (all_mesh_objs s)).1
    ∧ (reconstruct_scene_vars getTags s).2.1 =
        (classify_single_pass getTags (all_mesh_objs s)).2.1
    ∧ (∀ o ∈ all_mesh_objs s,
        List.count o (reconstruct_scene_vars_lookups getTags s) = 2)
    ∧ (∀ o ∈ all_mesh_objs s,
        List.count o (classify_single_pass getTags (all_mesh_objs s)).2.2 = 1) := by
  have hmesh : (all_mesh_objs s).Nodup := hnd.filter _
  refine ⟨?_, ?_, ?_, ?_⟩
  · rw [classify_single_pass_fst]; rfl
  · rw [classify_single_pass_snd]; rfl
  · intro o ho
    have h1 : List.count o (all_mesh_objs s) = 1 := List.count_eq_one_of_mem hmesh ho
    simp [reconstruct_scene_vars_lookups, filterWithLookups_snd, List.count_append, h1]
  · intro o ho
    rw [classify_single_pass_trace]
    exact List.count_eq_one_of_mem hmesh ho

/-- Witness for the amended C3 on the demonstration scene. -/
theorem C3_two_lookups_witness :
    sceneDemo.objects.Nodup ∧
      List.count objRoom (reconstruct_scene_vars_lookups tagsDemo sceneDemo) = 2 :=
  ⟨by decide,
   (C3_two_lookups_per_object tagsDemo sceneDemo (by decide)).2.2.1 objRoom (by decide)⟩

/-- Counterexample for C1: in a run where the trajectory solver fails and
every other external call succeeds, the error propagates but the temporary
combined floor-surface object is still present in the scene state at abort
(no delete call was issued): the deletion is not unconditional and the
object is leaked on solver failure. -/
theorem C1_unconditional_delete_counterexample :
    (re_pose_cameras envSolverFail argsDemo sceneNoRooms).error = some "solver failed"
    ∧ surfObj ∈ (re_pose_cameras envSolverFail argsDemo sceneNoRooms).scene.objects
    ∧ Call.delete surfObj ∉ (re_pose_cameras envSolverFail argsDemo sceneNoRooms).calls := by
  decide

/-- Amended claim C1: once the combined floor-surface object exists, it is
deleted when the trajectory-solver call returns normally (it is then absent
from the scene state, with a delete call issued); when the solver call
fails, the error propagates, no delete call is issued, and the temporary
floor-surface object remains in the scene state. -/
theorem C1_floor_surface_deleted_iff_solver_ok (env : Env) (args : Args)
    (s3 : Scene) (solved_rooms nonroom_objs scene_objs : List Obj)
    (prep : Nat) (pr : List Obj × Scene) (faces : List Obj) (surf : Obj)
    (h1 : env.camera_selection_preprocessing scene_objs = .ok prep)
    (h2 : env.spawn_camera_rigs s3 = .ok pr)
    (h3 : (extract_all env solved_rooms).2 = .ok faces)
    (h4 : env.join_objects faces = .ok surf) :
    (∀ e, env.compute_poses pr.1 prep surf nonroom_objs = .error e →
        (place_and_save env args s3 solved_rooms nonroom_objs scene_objs).error = some e
        ∧ surf ∈ (place_and_save env args s3 solved_rooms nonroom_objs scene_objs).scene.objects
        ∧ Call.delete surf ∉
            (place_and_save env args s3 solved_rooms nonroom_objs scene_objs).calls)
    ∧ (env.compute_poses pr.1 prep surf nonroom_objs = .ok () →
        surf ∉ (place_and_save env args s3 solved_rooms nonroom_objs scene_objs).scene.objects
        ∧ Call.delete surf ∈
            (place_and_save env args s3 solved_rooms nonroom_objs scene_objs).calls) := by
  constructor
  · intro e he
    rw [place_and_save_solver_error env args s3 solved_rooms nonroom_objs scene_objs
      prep pr faces surf e h1 h2 h3 h4 he]
    refine ⟨rfl, mem_addObj surf _, ?_⟩
    intro hmem
    have hex := delete_not_mem_extract_all env solved_rooms surf
    simp [List.mem_append, hex] at hmem
  · intro hok
    cases hs : env.save_as_mainfile (output_path env args) with
    | error e =>
      rw [place_and_save_save_error env args s3 solved_rooms nonroom_objs scene_objs
        prep pr faces surf e h1 h2 h3 h4 hok hs]
      exact ⟨not_mem_removeObj surf _, by simp⟩
    | ok u =>
      rw [place_and_save_success env args s3 solved_rooms nonroom_objs scene_objs
        prep pr faces surf h1 h2 h3 h4 hok hs]
      exact ⟨not_mem_removeObj surf _, by simp⟩

/-- Witness for the amended C1, exercising the solver-failure branch. -/
theorem C1_floor_surface_witness :
    envSolverFail.compute_poses [⟨10, "EMPTY"⟩] 0 surfObj [objChair] = .error "solver failed"
    ∧ surfObj ∈ (place_and_save envSolverFail argsDemo sceneDemo
        [objRoom] [objChair] [objRoom, objChair]).scene.objects := by
  have h := (C1_floor_surface_deleted_iff_solver_ok envSolverFail argsDemo sceneDemo
      [objRoom] [objChair] [objRoom, objChair] 0 ([⟨10, "EMPTY"⟩], sceneDemo)
      [⟨51, "MESH"⟩] surfObj rfl rfl rfl rfl).1 "solver failed" rfl
  exact ⟨rfl, h.2.1⟩

/-- Claim C7: if any external placement call (preprocessing, rig spawning,
tagged-face extraction, join, or trajectory solving) fails — all calls
before it having succeeded — the workflow aborts with that error
propagated, writes no output file, and never issues a save call. -/
theorem C7_external_failure_aborts (env : Env) (args : Args) (s0 s1 : Scene)
    (h0 : env.loadScene args.input_blend = .ok s1)
    (s2 : Scene) (hs2 : s2 = delete_existing_camera_rigs s1)
    (v : List Obj × List Obj × List Obj)
    (hv : v = reconstruct_scene_vars env.getTags s2) :
    (∀ e, env.camera_selection_preprocessing v.2.2 = .error e →
        (re_pose_cameras env args s0).error = some e
        ∧ (re_pose_cameras env args s0).saved = []
        ∧ ∀ p, Call.save p ∉ (re_pose_cameras env args s0).calls)
    ∧ (∀ e prep, env.camera_selection_preprocessing v.2.2 = .ok prep →
        env.spawn_camera_rigs s2 = .error e →
        (re_pose_cameras env args s0).error = some e
        ∧ (re_pose_cameras env args s0).saved = []
        ∧ ∀ p, Call.save p ∉ (re_pose_cameras env args s0).calls)
    ∧ (∀ e prep pr, env.camera_selection_preprocessing v.2.2 = .ok prep →
        env.spawn_camera_rigs s2 = .ok pr →
        (extract_all env v.1).2 = .error e →
        (re_pose_cameras env args s0).error = some e
        ∧ (re_pose_cameras env args s0).saved = []
        ∧ ∀ p, Call.save p ∉ (re_pose_cameras env args s0).calls)
    ∧ (∀ e prep pr faces, env.camera_selection_preprocessing v.2.2 = .ok prep →
        env.spawn_camera_rigs s2 = .ok pr →
        (extract_all env v.1).2 = .ok faces →
        env.join_objects faces = .error e →
        (re_pose_cameras env args s0).error = some e
        ∧ (re_pose_cameras env args s0).saved = []
        ∧ ∀ p, Call.save p ∉ (re_pose_cameras env args s0).calls)
    ∧ (∀ e prep pr faces surf, env.camera_selection_preprocessing v.2.2 = .ok prep →
        env.spawn_camera_rigs s2 = .ok pr →
        (extract_all env v.1).2 = .ok faces →
        env.join_objects faces = .ok surf →
        env.compute_poses pr.1 prep surf v.2.1 = .error e →
        (re_pose_cameras env args s0).error = some e
        ∧ (re_pose_cameras env args s0).saved = []
        ∧ ∀ p, Call.save p ∉ (re_pose_cameras env args s0).calls) := by
  subst hv
  subst hs2
  rw [re_pose_ok_load env args s0 s1 h0]
  refine ⟨?_, ?_, ?_, ?_, ?_⟩
  · intro e h1
    rw [place_and_save_prep_error env args _ _ _ _ e h1]
    exact ⟨rfl, rfl, fun p => by simp⟩
  · intro e prep h1 h2
    rw [place_and_save_spawn_error env args _ _ _ _ prep e h1 h2]
    exact ⟨rfl, rfl, fun p => by simp⟩
  · intro e prep pr h1 h2 h3
    rw [place_and_save_extract_error env args _ _ _ _ prep pr e h1 h2 h3]
    exact ⟨rfl, rfl, fun p => by simp [save_not_mem_extract_all]⟩
  · intro e prep pr faces h1 h2 h3 h4
    rw [place_and_save_join_error env args _ _ _ _ prep pr faces e h1 h2 h3 h4]
    exact ⟨rfl, rfl, fun p => by simp [save_not_mem_extract_all, List.mem_append]⟩
  · intro e prep pr faces surf h1 h2 h3 h4 h5
    rw [place_and_save_solver_error env args _ _ _ _ prep pr faces surf e h1 h2 h3 h4 h5]
    exact ⟨rfl, rfl, fun p => by simp [save_not_mem_extract_all, List.mem_append]⟩

/-- Witness for C7: a run in which preprocessing fails aborts with its
error and writes nothing. -/
theorem C7_external_failure_witness :
    envPrepFail.camera_selection_preprocessing
      (reconstruct_scene_vars envPrepFail.getTags
        (delete_existing_camera_rigs sceneDemo)).2.2 = .error "preprocessing failed"
    ∧ (re_pose_cameras envPrepFail argsDemo sceneNoRooms).error = some "preprocessing failed"
    ∧ (re_pose_cameras envPrepFail argsDemo sceneNoRooms).saved = [] := by
  have h := (C7_external_failure_aborts envPrepFail argsDemo sceneNoRooms sceneDemo rfl
      (delete_existing_camera_rigs sceneDemo) rfl
      (reconstruct_scene_vars envPrepFail.getTags (delete_existing_camera_rigs sceneDemo))
      rfl).1 "preprocessing failed" rfl
  exact ⟨rfl, h.1, h.2.1⟩

/-- Claim C8: with zero room-tagged mesh objects the classification yields
an empty rooms list, the join is invoked on the empty list of extracted
faces, and the trajectory solver is still invoked with the resulting
floor-surface object, whatever the solver then does. -/
theorem C8_zero_rooms_reaches_solver (env : Env) (args : Args) (s0 s1 : Scene)
    (prep : Nat) (pr : List Obj × Scene) (surf : Obj)
    (h0 : env.loadScene args.input_blend = .ok s1)
    (hnr : ∀ o ∈ all_mesh_objs (delete_existing_camera_rigs s1),
        Semantics.Room ∉ env.getTags o)
    (h1 : env.camera_selection_preprocessing
        (reconstruct_scene_vars env.getTags (delete_existing_camera_rigs s1)).2.2 = .ok prep)
    (h2 : env.spawn_camera_rigs (delete_existing_camera_rigs s1) = .ok pr)
    (h3 : env.join_objects [] = .ok surf) :
    (reconstruct_scene_vars env.getTags (delete_existing_camera_rigs s1)).1 = []
    ∧ Call.join [] ∈ (re_pose_cameras env args s0).calls
    ∧ Call.solve pr.1 surf
        (reconstruct_scene_vars env.getTags (delete_existing_camera_rigs s1)).2.1
        ∈ (re_pose_cameras env args s0).calls := by
  have hrooms :
      (reconstruct_scene_vars env.getTags (delete_existing_camera_rigs s1)).1 = [] := by
    simp only [reconstruct_scene_vars]
    apply List.filter_eq_nil_iff.mpr
    intro a ha
    simpa using hnr a ha
  have hex :
      (extract_all env
        (reconstruct_scene_vars env.getTags (delete_existing_camera_rigs s1)).1).2 =
        .ok [] := by
    rw [hrooms]
    rfl
  rw [re_pose_ok_load env args s0 s1 h0]
  refine ⟨hrooms, ?_, ?_⟩ <;>
  · cases h5 : env.compute_poses pr.1 prep surf
        (reconstruct_scene_vars env.getTags (delete_existing_camera_rigs s1)).2.1 with
    | error e =>
      rw [place_and_save_solver_error env args _ _ _ _ prep pr [] surf e h1 h2 hex h3 h5]
      simp
    | ok u =>
      cases u
      cases h6 : env.save_as_mainfile (output_path env args) with
      | error e2 =>
        rw [place_and_save_save_error env args _ _ _ _ prep pr [] surf e2 h1 h2 hex h3 h5 h6]
        simp
      | ok w =>
        cases w
        rw [place_and_save_success env args _ _ _ _ prep pr [] surf h1 h2 hex h3 h5 h6]
        simp

/-- Witness for C8: four untagged mesh objects, every external call
succeeding. -/
theorem C8_zero_rooms_witness :
    (∀ o ∈ all_mesh_objs (delete_existing_camera_rigs sceneNoRooms),
      Semantics.Room ∉ envNoRooms.getTags o)
    ∧ Call.join [] ∈ (re_pose_cameras envNoRooms argsDemo sceneDemo).calls
    ∧ Call.solve [⟨10, "EMPTY"⟩] surfObj
        (reconstruct_scene_vars envNoRooms.getTags
          (delete_existing_camera_rigs sceneNoRooms)).2.1
        ∈ (re_pose_cameras envNoRooms argsDemo sceneDemo).calls := by
  have h := C8_zero_rooms_reaches_solver envNoRooms argsDemo sceneDemo sceneNoRooms 0
    ([⟨10, "EMPTY"⟩], sceneNoRooms) surfObj rfl (by decide) rfl rfl rfl
  exact ⟨by decide, h.2.1, h.2.2⟩

/-- Claim C9: whenever the workflow terminates without error, the scene was
saved to exactly one file, in the output folder, named by appending the
fixed suffix to the stem of the input file. -/
theorem C9_success_saves_derived_path (env : Env) (args : Args) (s0 : Scene)
    (h : (re_pose_cameras env args s0).error = none) :
    (re_pose_cameras env args s0).saved = [output_path env args] := by
  cases h0 : env.loadScene args.input_blend with
  | error e =>
    unfold re_pose_cameras at h ⊢
    rw [h0] at h
    simp at h
  | ok s1 =>
    rw [re_pose_ok_load env args s0 s1 h0] at h ⊢
    cases h1 : env.camera_selection_preprocessing
        (reconstruct_scene_vars env.getTags (delete_existing_camera_rigs s1)).2.2 with
    | error e =>
      rw [place_and_save_prep_error env args _ _ _ _ e h1] at h
      simp at h
    | ok prep =>
      cases h2 : env.spawn_camera_rigs (delete_existing_camera_rigs s1) with
      | error e =>
        rw [place_and_save_spawn_error env args _ _ _ _ prep e h1 h2] at h
        simp at h
      | ok pr =>
        cases h3 : (extract_all env
            (reconstruct_scene_vars env.getTags (delete_existing_camera_rigs s1)).1).2 with
        | error e =>
          rw [place_and_save_extract_error env args _ _ _ _ prep pr e h1 h2 h3] at h
          simp at h
        | ok faces =>
          cases h4 : env.join_objects faces with
          | error e =>
            rw [place_and_save_join_error env args _ _ _ _ prep pr faces e h1 h2 h3 h4] at h
            simp at h
          | ok surf =>
            cases h5 : env.compute_poses pr.1 prep surf
                (reconstruct_scene_vars env.getTags (delete_existing_camera_rigs s1)).2.1 with
            | error e =>
              rw [place_and_save_solver_error env args _ _ _ _ prep pr faces surf e
                h1 h2 h3 h4 h5] at h
              simp at h
            | ok u =>
              cases u
              cases h6 : env.save_as_mainfile (output_path env args) with
              | error e =>
                rw [place_and_save_save_error env args _ _ _ _ prep pr faces surf e
                  h1 h2 h3 h4 h5 h6] at h
                simp at h
              | ok w =>
                cases w
                rw [place_and_save_success env args _ _ _ _ prep pr faces surf
                  h1 h2 h3 h4 h5 h6]

/-- Witness for C9: the all-success run saves exactly
`/out/scene_with_new_cameras.blend`. -/
theorem C9_success_saves_witness :
    (re_pose_cameras envOk argsDemo sceneNoRooms).error = none
    ∧ (re_pose_cameras envOk argsDemo sceneNoRooms).saved =
        ["/out/scene_with_new_cameras.blend"] :=
  ⟨by decide,
   (C9_success_saves_derived_path envOk argsDemo sceneNoRooms (by decide)).trans (by decide)⟩

end PlaceCameras
